import Mathlib

/-!
Shallow embedding of the invoice extraction pipeline
(`src/dags/invoice_extraction_v3.py`, `src/include/validators/invoice_models.py`,
`src/include/llm/provider_factory.py`, `src/include/llm/base_provider.py` and the
three vendor provider modules).

Monetary values are embedded as exact rationals (`ℚ`).  External collaborators
(the datetime parser, the LLM network calls, the JSON decoder for LLM output,
the object-storage copy/delete operations, the relational store and the wall
clock) are passed in as explicit oracle parameters, so every definition stays
executable and claims can be evaluated on concrete inputs.
-/

namespace InvoicePipeline

/-- Embedding of the pydantic model `InvoiceItem` (`invoice_models.py`, lines 7-20):
one invoice line entry.  The declared field constraints (`nome` min_length 1,
`quantidade ≥ 1`, `preco_unitario ≥ 0`, `preco_total ≥ 0`) and the
`validate_total` field validator are embedded separately in `itemFieldErrors`,
because pydantic reports them as validation errors rather than making the
values unrepresentable. -/
structure InvoiceItem where
  nome : String
  quantidade : Int
  preco_unitario : ℚ
  preco_total : ℚ
deriving Repr, DecidableEq

/-- Embedding of one pydantic validation error: its location tuple (as rendered
key path, empty for model-level validators) and its message.  Only the head of
`loc` is consumed by the pipeline (`invoice_extraction_v3.py`, line 214). -/
structure PError where
  loc : List String
  msg : String
deriving Repr, DecidableEq

/-- Embedding of the JSON-dict record that flows between the pipeline stages
(`invoice_extraction_v3.py`).  Every key the stages read or write appears as an
optional field; `none` models an absent dict key. -/
structure Extraction where
  file_key : Option String := none
  status : Option String := none
  error : Option String := none
  order_id : Option String := none
  restaurante : Option String := none
  cnpj : Option String := none
  endereco : Option String := none
  data_hora : Option String := none
  itens : Option (List InvoiceItem) := none
  subtotal : Option ℚ := none
  taxa_entrega : Option ℚ := none
  taxa_servico : Option ℚ := none
  gorjeta : Option ℚ := none
  total : Option ℚ := none
  pagamento : Option String := none
  endereco_entrega : Option String := none
  tempo_entrega : Option String := none
  entregador : Option String := none
  provider : Option String := none
  model : Option String := none
  tokens_used : Option Int := none
  cost : Option ℚ := none
  latency_ms : Option ℚ := none
  processed_at : Option String := none
  validation_passed : Option Bool := none
  validation_errors : Option (List String) := none
deriving Repr, DecidableEq

/-- Embedding of Python's `str.replace` on character lists: replace each
non-overlapping occurrence of `pat`, scanning left to right.  The guard
`0 < pat.length` keeps the recursion well-founded; the pipeline only ever
replaces the non-empty patterns `"Z"` and `"incoming/"`. -/
def pyReplaceAux (pat rep : List Char) : List Char → List Char
  | [] => []
  | c :: rest =>
    if 0 < pat.length ∧ (c :: rest).take pat.length = pat then
      rep ++ pyReplaceAux pat rep ((c :: rest).drop pat.length)
    else c :: pyReplaceAux pat rep rest
termination_by l => l.length
decreasing_by
  · simp only [List.length_drop, List.length_cons]; omega
  · simp

/-- Embedding of Python's `str.replace` on strings. -/
def pyReplace (s pat rep : String) : String :=
  ⟨pyReplaceAux pat.data rep.data s.data⟩

/-- Embedding of Python's `str.strip()`: drop whitespace from both ends. -/
def pyStrip (s : String) : String :=
  ⟨((s.data.dropWhile Char.isWhitespace).reverse.dropWhile Char.isWhitespace).reverse⟩

/-- Pydantic check for a required string field with `min_length=1`
(`order_id`, `restaurante` in `invoice_models.py`, lines 24-25). -/
def requiredMinLen1 (name : String) (v : Option String) : List PError :=
  match v with
  | none => [⟨[name], "Field required"⟩]
  | some s =>
    if 1 ≤ s.length then [] else [⟨[name], "String should have at least 1 character"⟩]

/-- Pydantic check for a required numeric field with `ge=0`
(`subtotal`, `total` in `invoice_models.py`, lines 30 and 34). -/
def requiredNonneg (name : String) (v : Option ℚ) : List PError :=
  match v with
  | none => [⟨[name], "Field required"⟩]
  | some q =>
    if 0 ≤ q then [] else [⟨[name], "Input should be greater than or equal to 0"⟩]

/-- Pydantic check for a numeric field with `default=0.0, ge=0`
(`taxa_entrega`, `taxa_servico`, `gorjeta` in `invoice_models.py`, lines 31-33). -/
def optionalNonneg (name : String) (v : Option ℚ) : List PError :=
  match v with
  | none => []
  | some q =>
    if 0 ≤ q then [] else [⟨[name], "Input should be greater than or equal to 0"⟩]

/-- Pydantic check for the required `data_hora` field (`invoice_models.py`,
lines 28 and 64-72).  The before-validator replaces a trailing `Z` spelling by
`+00:00` and calls `datetime.fromisoformat`; the parser itself is the external
standard library, abstracted by the oracle `dtOk` (success of
`datetime.fromisoformat` on the already-rewritten string). -/
def datetimeErrors (dtOk : String → Bool) (v : Option String) : List PError :=
  match v with
  | none => [⟨["data_hora"], "Field required"⟩]
  | some s =>
    if dtOk (pyReplace s "Z" "+00:00") then []
    else [⟨["data_hora"], "Value error, Invalid datetime format: " ++ s⟩]

/-- Embedding of `InvoiceItem.validate_total` (`invoice_models.py`, lines 13-20)
together with the `ge=0` constraint on `preco_total`: the field validator only
runs when `preco_total` passed its own constraint, and the mismatch check only
fires when `quantidade` and `preco_unitario` validated successfully (pydantic
exposes previously-validated fields through `info.data`). -/
def precoTotalErrors (i : ℕ) (it : InvoiceItem) : List PError :=
  if ¬ (0 ≤ it.preco_total) then
    [⟨["itens", toString i, "preco_total"], "Input should be greater than or equal to 0"⟩]
  else if 1 ≤ it.quantidade ∧ 0 ≤ it.preco_unitario then
    if |it.preco_total - (it.quantidade : ℚ) * it.preco_unitario| ≤ 0.01 then []
    else [⟨["itens", toString i, "preco_total"], "Value error, Item total mismatch"⟩]
  else []

/-- All pydantic errors of the `i`-th invoice item, in field declaration order. -/
def itemFieldErrors (i : ℕ) (it : InvoiceItem) : List PError :=
  (if 1 ≤ it.nome.length then []
   else [⟨["itens", toString i, "nome"], "String should have at least 1 character"⟩]) ++
  (if 1 ≤ it.quantidade then []
   else [⟨["itens", toString i, "quantidade"], "Input should be greater than or equal to 1"⟩]) ++
  (if 0 ≤ it.preco_unitario then []
   else [⟨["itens", toString i, "preco_unitario"], "Input should be greater than or equal to 0"⟩]) ++
  precoTotalErrors i it

/-- Pydantic check for the required `itens` field with `min_length=1`
(`invoice_models.py`, line 29): a missing or empty list is a field error,
otherwise each item is validated in order. -/
def itensErrors (v : Option (List InvoiceItem)) : List PError :=
  match v with
  | none => [⟨["itens"], "Field required"⟩]
  | some l =>
    if l.isEmpty then [⟨["itens"], "List should have at least 1 item"⟩]
    else (l.enum.map (fun p => itemFieldErrors p.1 p.2)).flatten

/-- All field-level pydantic errors of `InvoiceData(**extraction)`
(`invoice_models.py`, lines 23-38), in field declaration order.  Extra dict
keys (`file_key`, `provider`, ...) are ignored by pydantic's default config. -/
def invoiceFieldErrors (dtOk : String → Bool) (e : Extraction) : List PError :=
  requiredMinLen1 "order_id" e.order_id ++
  requiredMinLen1 "restaurante" e.restaurante ++
  datetimeErrors dtOk e.data_hora ++
  itensErrors e.itens ++
  requiredNonneg "subtotal" e.subtotal ++
  optionalNonneg "taxa_entrega" e.taxa_entrega ++
  optionalNonneg "taxa_servico" e.taxa_servico ++
  optionalNonneg "gorjeta" e.gorjeta ++
  requiredNonneg "total" e.total

/-- Embedding of `InvoiceData.validate_invoice_total` (`invoice_models.py`,
lines 40-62), the `mode='after'` model validator: it raises on the first
violated monetary invariant, producing a single error whose `loc` is the empty
tuple.  Absent optional fee fields take their pydantic default `0.0`. -/
def invoiceModelErrors (e : Extraction) : List PError :=
  let expected_total :=
    e.subtotal.getD 0 + e.taxa_entrega.getD 0 + e.taxa_servico.getD 0 + e.gorjeta.getD 0
  if ¬ (|e.total.getD 0 - expected_total| ≤ 0.01) then
    [⟨[], "Value error, Invoice total mismatch"⟩]
  else
    let items_subtotal := ((e.itens.getD []).map (fun it => it.preco_total)).sum
    if ¬ (|e.subtotal.getD 0 - items_subtotal| ≤ 0.01) then
      [⟨[], "Value error, Subtotal mismatch"⟩]
    else []

/-- Complete pydantic validation of `InvoiceData(**extraction)`: the model
validator runs only when every field validated successfully. -/
def invoiceDataErrors (dtOk : String → Bool) (e : Extraction) : List PError :=
  let fe := invoiceFieldErrors dtOk e
  if fe.isEmpty then invoiceModelErrors e else fe

/-- Embedding of the message formatting at `invoice_extraction_v3.py`, line 214:
`f"\x7berr['loc'][0]\x7d: \x7berr['msg']\x7d"`.  Indexing the location tuple of a
model-validator error (empty `loc`) raises `IndexError`, which the surrounding
`except ValidationError` clause does not catch. -/
def formatError (err : PError) : Except String String :=
  match err.loc with
  | [] => .error "IndexError: tuple index out of range"
  | f :: _ => .ok (f ++ ": " ++ err.msg)

/-- Embedding of the per-record body of `validate_extractions`
(`invoice_extraction_v3.py`, lines 186-222): records already marked failed pass
through unchanged; a record whose pydantic validation succeeds gets
`validation_passed=True` and `status="success"`; a record with validation
errors gets the formatted messages, `validation_passed=False` and
`status="needs_review"` — unless message formatting raises `IndexError`,
which escapes the task. -/
def validateOne (dtOk : String → Bool) (e : Extraction) : Except String Extraction :=
  if e.status = some "failed" then .ok e
  else
    match invoiceDataErrors dtOk e with
    | [] => .ok { e with validation_passed := some true, status := some "success" }
    | errs =>
      (errs.mapM formatError).map (fun ds =>
        { e with validation_passed := some false,
                 validation_errors := some ds,
                 status := some "needs_review" })

/-- Embedding of the task `validate_extractions` (`invoice_extraction_v3.py`,
lines 182-226): the records are handled sequentially and the results collected
in order; an uncaught exception while handling one record aborts the whole
task, which `Except.error` models. -/
def validate_extractions (dtOk : String → Bool) : List Extraction → Except String (List Extraction)
  | [] => .ok []
  | e :: rest =>
    match validateOne dtOk e with
    | .error ex => .error ex
    | .ok v =>
      match validate_extractions dtOk rest with
      | .error ex => .error ex
      | .ok vs => .ok (v :: vs)

/-- Embedding of the candidate list built by
`LLMProviderFactory.create_with_fallback` (`provider_factory.py`, line 60):
`[primary_provider] + [p.strip() for p in fallback_order if p.strip() != primary_provider]`. -/
def all_providers (primary : String) (fallback_order : List String) : List String :=
  primary :: (fallback_order.map (fun p => pyStrip p)).filter (fun p => p ≠ primary)

/-- Embedding of the construction loop of `create_with_fallback`
(`provider_factory.py`, lines 62-73).  `ok` is the oracle for
`create_provider` succeeding on a vendor name (credentials present and ready,
name supported).  `tried` mirrors `tried_providers`, which the source only
extends on a successful construction.  Returns the list of vendors on which
construction was attempted and the list of successfully constructed vendors,
both in iteration order. -/
def fallbackLoop (ok : String → Bool) : List String → List String → List String × List String
  | [], _ => ([], [])
  | p :: rest, tried =>
    if p ∈ tried then fallbackLoop ok rest tried
    else if ok p then
      let r := fallbackLoop ok rest (p :: tried)
      (p :: r.1, p :: r.2)
    else
      let r := fallbackLoop ok rest tried
      (p :: r.1, r.2)

/-- Embedding of `LLMProviderFactory.create_with_fallback`
(`provider_factory.py`, lines 48-78): the list of successfully constructed
vendor names, or the `RuntimeError` message when none constructs. -/
def create_with_fallback (ok : String → Bool) (primary : String)
    (fallback_order : List String) : Except String (List String) :=
  match (fallbackLoop ok (all_providers primary fallback_order) []).2 with
  | [] => .error "No LLM providers could be initialized"
  | ps => .ok ps

/-- Embedding of `LLMProviderFactory.get_primary_provider`
(`provider_factory.py`, lines 80-89): with fallback enabled the active provider
is the head of the constructed list; with fallback disabled the primary is
constructed directly and its failure propagates. -/
def get_primary_provider (ok : String → Bool) (primary : String)
    (fallback_order : List String) (enable_fallback : Bool) : Except String String :=
  if enable_fallback then
    match create_with_fallback ok primary fallback_order with
    | .ok (p :: _) => .ok p
    | .ok [] => .error "No LLM providers could be initialized"
    | .error e => .error e
  else
    if ok primary then .ok primary else .error ("Failed to initialize " ++ primary)

/-- Embedding of a vendor pricing entry: dollars per million input and output
tokens (`base_provider.py`, `_get_pricing`). -/
structure Pricing where
  input : ℚ
  output : ℚ
deriving Repr, DecidableEq

/-- Embedding of `BaseLLMProvider._calculate_cost` (`base_provider.py`,
lines 34-36):
`(input_tokens * pricing["input"] + output_tokens * pricing["output"]) / 1_000_000`. -/
def calculate_cost (pricing : Pricing) (input_tokens output_tokens : ℕ) : ℚ :=
  ((input_tokens : ℚ) * pricing.input + (output_tokens : ℚ) * pricing.output) / 1000000

/-- Embedding of `OpenAIProvider._get_pricing` (`openai_provider.py`,
lines 47-53): per-model table with the documented default
`\x7b"input": 0.15, "output": 0.60\x7d` for unknown model identifiers. -/
def openai_get_pricing (model : String) : Pricing :=
  if model = "gpt-4o" then ⟨2.50, 10.00⟩
  else if model = "gpt-4o-mini" then ⟨0.15, 0.60⟩
  else if model = "gpt-4-turbo" then ⟨10.00, 30.00⟩
  else ⟨0.15, 0.60⟩

/-- Embedding of `AnthropicProvider._get_pricing` (`anthropic_provider.py`,
lines 46-52), default `\x7b"input": 0.25, "output": 1.25\x7d`. -/
def anthropic_get_pricing (model : String) : Pricing :=
  if model = "claude-3-opus-20240229" then ⟨15.00, 75.00⟩
  else if model = "claude-3-sonnet-20240229" then ⟨3.00, 15.00⟩
  else if model = "claude-3-haiku-20240307" then ⟨0.25, 1.25⟩
  else ⟨0.25, 1.25⟩

/-- Embedding of `GeminiProvider._get_pricing` (`gemini_provider.py`,
lines 48-53), default `\x7b"input": 0.0, "output": 0.0\x7d`. -/
def gemini_get_pricing (model : String) : Pricing :=
  if model = "gemini-1.5-flash" then ⟨0.0, 0.0⟩
  else if model = "gemini-1.5-pro" then ⟨1.25, 5.00⟩
  else ⟨0.0, 0.0⟩

/-- Embedding of the task `create_batches` (`invoice_extraction_v3.py`,
lines 75-82) via `chunkAux`: Python's
`[file_keys[i:i + batch_size] for i in range(0, len(file_keys), batch_size)]`
for positive `batch_size = m + 1`. -/
def chunkAux (m : ℕ) : List α → List (List α)
  | [] => []
  | a :: l => (a :: l.take m) :: chunkAux m (l.drop m)
termination_by l => l.length
decreasing_by simp only [List.length_cons, List.length_drop]; omega

/-- Embedding of `create_batches`: the empty-input guard returns `[]` before
any slicing; `range` with step `0` raises `ValueError`, modelled by `none`. -/
def create_batches (file_keys : List α) (batch_size : ℕ) : Option (List (List α)) :=
  if file_keys.isEmpty then some []
  else
    match batch_size with
    | 0 => none
    | m + 1 => some (chunkAux m file_keys)

/-- Embedding of one entry of the `extract_batch_texts` output
(`invoice_extraction_v3.py`, lines 85-112): file key, extracted text, page
count, and the error annotation recorded when reading or parsing raised. -/
structure BatchEntry where
  file_key : String
  text : String
  num_pages : Option ℕ := none
  error : Option String := none
deriving Repr, DecidableEq

/-- Embedding of `LLMResponse` (`base_provider.py`, lines 6-14). -/
structure LLMResp where
  content : String
  provider : String
  model : String
  tokens_used : Int
  cost : ℚ
  latency_ms : ℚ
deriving Repr, DecidableEq

/-- Embedding of a constructed provider as seen by `process_batch_with_llm`:
its name, its model, and the oracle for `extract_invoice_data` (the network
call; `Except.error` is a raised `Exception`). -/
structure Provider where
  provider_name : String
  model : String
  call : String → Except String LLMResp

/-- Failed-record dict built at `invoice_extraction_v3.py`, lines 139, 144-148
and 174-178. -/
def failedRecord (fk : String) (err : String) : Extraction :=
  { file_key := some fk, status := some "failed", error := some err }

/-- Embedding of the per-document loop body of `process_batch_with_llm`
(`invoice_extraction_v3.py`, lines 142-178).  `parse` is the oracle for
`json.loads` on the LLM content (an `Except.error` is a raised exception, e.g.
malformed JSON); `now` is the rendered `datetime.now().isoformat()` for this
document.  A successful parse is updated in place with the provenance keys. -/
def processDoc (parse : String → Except String Extraction) (p : Provider)
    (now : String) (d : BatchEntry) : Extraction :=
  if d.error.isSome ∨ d.text = "" then
    failedRecord d.file_key (d.error.getD "No text extracted")
  else
    match p.call d.text with
    | .error e => failedRecord d.file_key e
    | .ok resp =>
      match parse resp.content with
      | .error e => failedRecord d.file_key e
      | .ok inv =>
        { inv with file_key := some d.file_key,
                   provider := some resp.provider,
                   model := some resp.model,
                   tokens_used := some resp.tokens_used,
                   cost := some resp.cost,
                   latency_ms := some resp.latency_ms,
                   processed_at := some now }

/-- Embedding of the task `process_batch_with_llm` (`invoice_extraction_v3.py`,
lines 114-180).  `providerInit` is the outcome of
`LLMProviderFactory.get_primary_provider()`; when it fails, every document of
the batch is marked failed with the selection error and no call oracle is ever
consulted.  `clock` renders the wall-clock time at the `i`-th document. -/
def process_batch_with_llm (parse : String → Except String Extraction)
    (providerInit : Except String Provider) (clock : ℕ → String)
    (batch_data : List BatchEntry) : List Extraction :=
  match providerInit with
  | .error e => batch_data.map (fun d => failedRecord d.file_key e)
  | .ok p => batch_data.enum.map (fun q => processDoc parse p (clock q.1) q.2)

/-- Embedding of one row of `invoices.invoices` (`invoice_extraction_v3.py`,
lines 234-269).  `order_datetime` keeps the source string of `data_hora`
(its parsing by `datetime.fromisoformat` is the external standard library);
`created_at` / `updated_at` are abstract clock ticks for `CURRENT_TIMESTAMP`;
`raw_data` holds the full record serialized into the row. -/
structure Row where
  order_id : String
  restaurant : Option String
  cnpj : Option String
  address : Option String
  order_datetime : Option String
  items : List InvoiceItem
  subtotal : ℚ
  delivery_fee : ℚ
  service_fee : ℚ
  tip : ℚ
  total : ℚ
  payment_method : Option String
  delivery_address : Option String
  delivery_time : Option String
  delivery_person : Option String
  file_key : Option String
  provider : Option String
  model : Option String
  tokens_used : Int
  cost : ℚ
  latency_ms : ℚ
  validation_passed : Bool
  validation_errors : List String
  raw_data : Extraction
  processed_at : Option String
  created_at : ℕ
  updated_at : ℕ
deriving Repr, DecidableEq

/-- Row built from one record by the `INSERT` at `invoice_extraction_v3.py`,
lines 284-321, with the source's `data.get(..., default)` defaults.  A record
without an `order_id` key receives the synthetic key
`"UNKNOWN_" ++ toString now` rendered from the current wall-clock tick
(`f"UNKNOWN_\x7bdatetime.now().timestamp()\x7d"`, line 296). -/
def mkRow (now : ℕ) (e : Extraction) : Row where
  order_id := e.order_id.getD ("UNKNOWN_" ++ toString now)
  restaurant := e.restaurante
  cnpj := e.cnpj
  address := e.endereco
  order_datetime := e.data_hora
  items := e.itens.getD []
  subtotal := e.subtotal.getD 0
  delivery_fee := e.taxa_entrega.getD 0
  service_fee := e.taxa_servico.getD 0
  tip := e.gorjeta.getD 0
  total := e.total.getD 0
  payment_method := e.pagamento
  delivery_address := e.endereco_entrega
  delivery_time := e.tempo_entrega
  delivery_person := e.entregador
  file_key := e.file_key
  provider := e.provider
  model := e.model
  tokens_used := e.tokens_used.getD 0
  cost := e.cost.getD 0
  latency_ms := e.latency_ms.getD 0
  validation_passed := e.validation_passed.getD false
  validation_errors := e.validation_errors.getD []
  raw_data := e
  processed_at := e.processed_at
  created_at := now
  updated_at := now

/-- Embedding of the `INSERT ... ON CONFLICT (order_id) DO UPDATE SET
updated_at = CURRENT_TIMESTAMP, raw_data = EXCLUDED.raw_data`
(`invoice_extraction_v3.py`, lines 284-295) against a table with the `UNIQUE`
constraint on `order_id`: on a duplicate key only `updated_at` and `raw_data`
of the existing row change, otherwise a fresh row is appended. -/
def insertOnConflict (table : List Row) (now : ℕ) (e : Extraction) : List Row :=
  let r := mkRow now e
  if table.any (fun row => row.order_id = r.order_id) then
    table.map (fun row =>
      if row.order_id = r.order_id then { row with updated_at := now, raw_data := e }
      else row)
  else table ++ [r]

/-- Result of one `store_to_database` invocation: the table after the run and
the two counters returned by the task. -/
structure StoreResult where
  table : List Row
  success_count : ℕ
  failed_count : ℕ
deriving Repr, DecidableEq

/-- Success of the `datetime.fromisoformat` call at `invoice_extraction_v3.py`,
line 282, for one record: an absent `data_hora` is passed through as NULL (the
`isinstance` guard skips the parse), a present string must parse after the `Z`
rewrite.  `dtOk` is the external parser oracle, the same one the validator's
before-validator consults. -/
def dataHoraParses (dtOk : String → Bool) (e : Extraction) : Bool :=
  match e.data_hora with
  | none => true
  | some s => dtOk (pyReplace s "Z" "+00:00")

/-- A record survives the per-row `try` of the persistence loop: it is not
already failed (the `continue` at `invoice_extraction_v3.py`, line 277) and
its `data_hora`, when present, parses (line 282). -/
def rowWritable (dtOk : String → Bool) (e : Extraction) : Bool :=
  !(e.status == some "failed") && dataHoraParses dtOk e

/-- Embedding of the persistence loop of `store_to_database`
(`invoice_extraction_v3.py`, lines 271-328) with its per-row `try/except`
(lines 279 and 323-325): records with `status="failed"` are counted and
skipped without touching the table; for every other record the row is built
inside the `try` — `datetime.fromisoformat` on a present `data_hora` string
(line 282, after the `Z` rewrite) raises deterministically when the string
does not parse, and the `except` then counts the row failed and writes
nothing — otherwise the record is inserted with the on-conflict policy.
`dtOk` is the fromisoformat oracle shared with the validator; the database
round-trip itself (`cursor.execute`) is the external relational store,
modelled as not raising.  The clock tick `t` advances at each insert. -/
def store_to_database (dtOk : String → Bool) (table : List Row) (t : ℕ) :
    List Extraction → StoreResult
  | [] => ⟨table, 0, 0⟩
  | e :: rest =>
    if e.status = some "failed" then
      let r := store_to_database dtOk table t rest
      { r with failed_count := r.failed_count + 1 }
    else if dataHoraParses dtOk e then
      let r := store_to_database dtOk (insertOnConflict table t e) (t + 1) rest
      { r with success_count := r.success_count + 1 }
    else
      let r := store_to_database dtOk table t rest
      { r with failed_count := r.failed_count + 1 }

/-- Destination chosen by `move_processed_files` for one record
(`invoice_extraction_v3.py`, lines 350-358): `status="failed"` routes to
`failed/`, otherwise a false `validation_passed` (absent key defaults to
`True`) routes to `review/`, otherwise to `processed/`. -/
def destPrefixFor (e : Extraction) : String :=
  if e.status = some "failed" then "failed/"
  else if ¬ (e.validation_passed.getD true) then "review/"
  else "processed/"

/-- Per-file effect of `move_processed_files`: the copy and the delete of one
object.  `copied` / `deleted` record whether the object-storage operations
were attempted and succeeded: a copy failure raises, so the delete of that
file is never attempted (`invoice_extraction_v3.py`, lines 360-364). -/
structure MoveAction where
  file_key : String
  dest_key : String
  copied : Bool
  deleted : Bool
deriving Repr, DecidableEq

/-- Embedding of the loop body of `move_processed_files`
(`invoice_extraction_v3.py`, lines 344-364) for one record: records without a
truthy `file_key` are skipped (`if not file_key: continue`); otherwise the
destination key replaces `incoming/` by the status-determined prefix, and the
copy / delete oracles give the object-storage outcomes for this file. -/
def moveOne (copyOk delOk : String → Bool) (e : Extraction) : Option MoveAction :=
  match e.file_key with
  | none => none
  | some fk =>
    if fk = "" then none
    else
      some ⟨fk, pyReplace fk "incoming/" (destPrefixFor e), copyOk fk,
            copyOk fk && delOk fk⟩

/-- Counters of `move_processed_files`: the source appends the file key to the
per-branch list before attempting the copy, so the returned counts tally the
routing decision regardless of the copy / delete outcomes. -/
def moveCounts (l : List Extraction) : ℕ × ℕ × ℕ :=
  let routed := l.filter (fun e => (e.file_key.getD "") ≠ "")
  (routed.countP (fun e => destPrefixFor e = "processed/"),
   routed.countP (fun e => destPrefixFor e = "review/"),
   routed.countP (fun e => destPrefixFor e = "failed/"))

/-- Embedding of the task `move_processed_files` (`invoice_extraction_v3.py`,
lines 336-371): every record with a truthy file key yields exactly one move
action, an exception on one file is caught and does not stop the loop, and
the returned dict carries the three branch counts. -/
def move_processed_files (copyOk delOk : String → Bool) (l : List Extraction) :
    List MoveAction × ℕ × ℕ × ℕ :=
  (l.filterMap (moveOne copyOk delOk), moveCounts l)

/-- Shape invariant of the records produced by `validate_extractions`: a
record is either passed through as failed, or marked success with
`validation_passed=True`, or marked needs_review with
`validation_passed=False`. -/
def validShape (e : Extraction) : Prop :=
  e.status = some "failed" ∨
  (e.status = some "success" ∧ e.validation_passed = some true) ∨
  (e.status = some "needs_review" ∧ e.validation_passed = some false)

/-- Modelled from the spec: the destination-prefix table of the file lifecycle
manager, keyed purely on `status` — `failed` to `failed/`, `needs_review` to
`review/`, `success` to `processed/`.  Compared against `destPrefixFor`, which
embeds the source's branch on `validation_passed`. -/
def specStatusDest (e : Extraction) : String :=
  if e.status = some "failed" then "failed/"
  else if e.status = some "needs_review" then "review/"
  else "processed/"

/-- Structurally valid record whose grand total violates the invoice-total
invariant: `total = 10` but `subtotal + fees = 5`. -/
def businessBadTotal : Extraction :=
  { file_key := some "incoming/a.pdf", order_id := some "ORD-1",
    restaurante := some "Resto A", data_hora := some "2024-05-01T12:00:00Z",
    itens := some [⟨"Burger", 1, 5, 5⟩], subtotal := some 5, total := some 10 }

/-- Structurally valid record whose subtotal violates the items-sum invariant:
`subtotal = 9` but the single line totals `5` (the grand total matches the
subtotal, so only the second business check fires). -/
def businessBadSubtotal : Extraction :=
  { file_key := some "incoming/b.pdf", order_id := some "ORD-2",
    restaurante := some "Resto B", data_hora := some "2024-06-02T18:30:00Z",
    itens := some [⟨"Pizza", 1, 5, 5⟩], subtotal := some 9, total := some 9 }

/-- Concrete record used to exercise the persistence path, first write. -/
def demoFirst : Extraction :=
  { file_key := some "incoming/c.pdf", order_id := some "ORD-7",
    restaurante := some "Resto C", data_hora := some "2024-07-03T10:00:00Z",
    itens := some [⟨"Salad", 1, 8, 8⟩], subtotal := some 8, total := some 8,
    status := some "success", validation_passed := some true }

/-- Concrete record used to exercise the persistence path, duplicate write of
the same order id with different business values. -/
def demoSecond : Extraction :=
  { file_key := some "incoming/c-reprocessed.pdf", order_id := some "ORD-7",
    restaurante := some "Resto C changed", data_hora := some "2024-07-04T10:00:00Z",
    itens := some [⟨"Salad", 2, 8, 16⟩], subtotal := some 16, total := some 16,
    status := some "success", validation_passed := some true }

/-- Concrete needs-review record that reached persistence without an
`order_id` key (its structural validation failed before the field was
available). -/
def noOrderId : Extraction :=
  { file_key := some "incoming/d.pdf", status := some "needs_review",
    validation_passed := some false,
    validation_errors := some ["order_id: Field required"] }

/-- Concrete record with a structural violation only: the required `order_id`
key is missing, everything else is consistent. -/
def structBad : Extraction :=
  { file_key := some "incoming/e.pdf", restaurante := some "Resto E",
    data_hora := some "2024-08-05T09:00:00Z",
    itens := some [⟨"Juice", 1, 3, 3⟩], subtotal := some 3, total := some 3 }

/-- Raw extraction whose `data_hora` string `datetime.fromisoformat` rejects;
all other fields are consistent, so the validator downgrades it to
needs_review and it reaches persistence non-failed. -/
def rawBadTimestamp : Extraction :=
  { file_key := some "incoming/f.pdf", order_id := some "ORD-9",
    restaurante := some "Resto F", data_hora := some "not a timestamp",
    itens := some [⟨"Tea", 1, 2, 2⟩], subtotal := some 2, total := some 2 }

/-- The record `rawBadTimestamp` exactly as it leaves the validator. -/
def badTimestamp : Extraction :=
  { rawBadTimestamp with
      validation_passed := some false,
      validation_errors :=
        some ["data_hora: Value error, Invalid datetime format: not a timestamp"],
      status := some "needs_review" }

/-- A second validator-shaped needs-review record with an unparseable
`data_hora` string, distinct from `badTimestamp`. -/
def badTimestampB : Extraction :=
  { file_key := some "incoming/g.pdf", order_id := some "ORD-10",
    restaurante := some "Resto G", data_hora := some "not a timestamp",
    itens := some [⟨"Cake", 1, 4, 4⟩], subtotal := some 4, total := some 4,
    validation_passed := some false,
    validation_errors :=
      some ["data_hora: Value error, Invalid datetime format: not a timestamp"],
    status := some "needs_review" }

/-- A validator-shaped needs-review record that lacks an `order_id` key and
carries an unparseable `data_hora` string. -/
def noOrderBadTimestamp : Extraction :=
  { file_key := some "incoming/h.pdf", data_hora := some "not a timestamp",
    status := some "needs_review", validation_passed := some false,
    validation_errors :=
      some ["order_id: Field required",
            "data_hora: Value error, Invalid datetime format: not a timestamp"] }

/-- Concrete needs-review record as it leaves the validator, used to exercise
the file-move stage. -/
def reviewRecord : Extraction :=
  { file_key := some "incoming/x.pdf", status := some "needs_review",
    validation_passed := some false }

theorem chunkAux_flatten (m : ℕ) (l : List α) : (chunkAux m l).flatten = l := by
  induction l using chunkAux.induct m with
  | case1 => simp [chunkAux]
  | case2 a l ih =>
    rw [chunkAux]
    simp only [List.flatten_cons, ih]
    simp [List.take_append_drop]

theorem chunkAux_mem (m : ℕ) (l : List α) (c : List α) (hc : c ∈ chunkAux m l) :
    c ≠ [] ∧ c.length ≤ m + 1 := by
  induction l using chunkAux.induct m with
  | case1 => simp [chunkAux] at hc
  | case2 a l ih =>
    rw [chunkAux] at hc
    rcases List.mem_cons.mp hc with h | h
    · subst h
      refine ⟨by simp, ?_⟩
      simp only [List.length_cons, List.length_take]
      omega
    · exact ih h

theorem chunkAux_getElem (m : ℕ) (l : List α) (i : ℕ) (h : i + 1 < (chunkAux m l).length) :
    ∃ c, (chunkAux m l)[i]? = some c ∧ c.length = m + 1 := by
  induction l using chunkAux.induct m generalizing i with
  | case1 => simp [chunkAux] at h
  | case2 a l ih =>
    rw [chunkAux] at h
    simp only [List.length_cons] at h
    match i with
    | 0 =>
      have hdrop : l.drop m ≠ [] := by
        intro hnil
        rw [hnil] at h
        simp [chunkAux] at h
      have hm : m < l.length := by
        by_contra hle
        exact hdrop (List.drop_eq_nil_of_le (by omega))
      refine ⟨a :: l.take m, ?_, ?_⟩
      · rw [chunkAux]; simp
      · simp only [List.length_cons, List.length_take]; omega
    | i + 1 =>
      obtain ⟨c, hc, hlen⟩ := ih i (by omega)
      refine ⟨c, ?_, hlen⟩
      rw [chunkAux]
      simpa using hc

/-- C7: for every list of files and every positive batch size, `create_batches`
partitions the list into contiguous groups of the given size preserving the
original order (their concatenation is the input), every group is non-empty and
no longer than the size, every group except possibly the final one has exactly
the given size; moreover `create_batches [] 5 = []`, a 10-element list with
size 5 yields two groups of 5, and a 7-element list with size 5 yields groups
of sizes 5 and 2. -/
theorem create_batches_spec :
    (∀ (α : Type) (l : List α) (n : ℕ), 0 < n →
      ∃ cs, create_batches l n = some cs ∧
        cs.flatten = l ∧
        (∀ c ∈ cs, c ≠ [] ∧ c.length ≤ n) ∧
        (∀ i, i + 1 < cs.length → ∃ c, cs[i]? = some c ∧ c.length = n)) ∧
    create_batches (List.range 10) 5 = some [[0, 1, 2, 3, 4], [5, 6, 7, 8, 9]] ∧
    create_batches (List.range 7) 5 = some [[0, 1, 2, 3, 4], [5, 6]] ∧
    create_batches ([] : List ℕ) 5 = some [] := by
  refine ⟨?_, ?_, ?_, ?_⟩
  · intro α l n hn
    match n, hn with
    | m + 1, _ =>
      by_cases hl : l.isEmpty
      · refine ⟨[], by simp [create_batches, hl], ?_, by simp, by simp⟩
        simp [List.isEmpty_iff.mp hl]
      · refine ⟨chunkAux m l, by simp [create_batches, hl], chunkAux_flatten m l, ?_, ?_⟩
        · exact fun c hc => chunkAux_mem m l c hc
        · exact fun i hi => chunkAux_getElem m l i hi
  · simp [create_batches, List.range_succ, chunkAux]
  · simp [create_batches, List.range_succ, chunkAux]
  · simp [create_batches]

theorem create_batches_spec_witness :
    ∃ cs, create_batches [10, 20, 30] 2 = some cs ∧
      cs.flatten = [10, 20, 30] ∧
      (∀ c ∈ cs, c ≠ [] ∧ c.length ≤ 2) ∧
      (∀ i, i + 1 < cs.length → ∃ c, cs[i]? = some c ∧ c.length = 2) :=
  create_batches_spec.1 ℕ [10, 20, 30] 2 (by norm_num)

/-- C8: for every pricing entry and token counts, the computed call cost equals
`(inputTokens * inputRate + outputTokens * outputRate) / 1_000_000`; each
vendor's table falls back to its documented default rate on an unknown model
identifier; and 1000 input plus 500 output tokens at rates
`input = 0.15, output = 0.60` cost exactly `0.00045`. -/
theorem calculate_cost_spec :
    (∀ (p : Pricing) (i o : ℕ),
      calculate_cost p i o = ((i : ℚ) * p.input + (o : ℚ) * p.output) / 1000000) ∧
    (∀ m, m ≠ "gpt-4o" → m ≠ "gpt-4o-mini" → m ≠ "gpt-4-turbo" →
      openai_get_pricing m = ⟨0.15, 0.60⟩) ∧
    (∀ m, m ≠ "claude-3-opus-20240229" → m ≠ "claude-3-sonnet-20240229" →
      m ≠ "claude-3-haiku-20240307" → anthropic_get_pricing m = ⟨0.25, 1.25⟩) ∧
    (∀ m, m ≠ "gemini-1.5-flash" → m ≠ "gemini-1.5-pro" →
      gemini_get_pricing m = ⟨0.0, 0.0⟩) ∧
    calculate_cost ⟨0.15, 0.60⟩ 1000 500 = 0.00045 := by
  refine ⟨fun p i o => rfl, ?_, ?_, ?_, ?_⟩
  · intro m h1 h2 h3
    simp [openai_get_pricing, h1, h2, h3]
  · intro m h1 h2 h3
    simp [anthropic_get_pricing, h1, h2, h3]
  · intro m h1 h2
    simp [gemini_get_pricing, h1, h2]
  · norm_num [calculate_cost]

theorem calculate_cost_spec_witness :
    openai_get_pricing "o3-mini" = ⟨0.15, 0.60⟩ ∧
    anthropic_get_pricing "claude-4-sonnet" = ⟨0.25, 1.25⟩ ∧
    gemini_get_pricing "gemini-2.0-flash" = ⟨0.0, 0.0⟩ ∧
    calculate_cost ⟨0.15, 0.60⟩ 1000 500 = 0.00045 :=
  ⟨calculate_cost_spec.2.1 "o3-mini" (by decide) (by decide) (by decide),
   calculate_cost_spec.2.2.1 "claude-4-sonnet" (by decide) (by decide) (by decide),
   calculate_cost_spec.2.2.2.1 "gemini-2.0-flash" (by decide) (by decide),
   calculate_cost_spec.2.2.2.2⟩

theorem fallbackLoop_nodup (ok : String → Bool) :
    ∀ (l tried : List String), l.Nodup → (∀ p ∈ l, p ∉ tried) →
      fallbackLoop ok l tried = (l, l.filter (fun p => ok p)) := by
  intro l
  induction l with
  | nil => intro tried _ _; simp [fallbackLoop]
  | cons p rest ih =>
    intro tried hnd htr
    have hp : p ∉ tried := htr p (by simp)
    rw [fallbackLoop, if_neg hp]
    by_cases hok : ok p
    · rw [if_pos hok]
      rw [ih (p :: tried) (List.nodup_cons.mp hnd).2 ?side]
      case side =>
        intro q hq
        simp only [List.mem_cons]
        push_neg
        exact ⟨fun hqp => ((List.nodup_cons.mp hnd).1 (hqp ▸ hq)), htr q (by simp [hq])⟩
      simp [List.filter_cons, hok]
    · rw [if_neg hok]
      rw [ih tried (List.nodup_cons.mp hnd).2 (fun q hq => htr q (by simp [hq]))]
      simp [List.filter_cons, hok]

/-- C3 counterexample: with primary `"openai"`, configured fallback order
`["gemini", "gemini"]` and only `"openai"` constructible, the vendor
`"gemini"` is attempted twice.  `tried_providers` is only extended on a
successful construction (`provider_factory.py`, line 69), so a failing vendor
that occurs twice in the fallback order is not skipped the second time,
refuting "each vendor is attempted at most once". -/
theorem provider_attempts_counterexample :
    ((fallbackLoop (fun p => p == "openai")
        (all_providers "openai" ["gemini", "gemini"]) []).1.count "gemini") = 2 := by
  rfl

/-- C3 (amended): the candidate sequence is the configured primary vendor
followed by the trimmed fallback order with entries equal to the primary
removed; a vendor that already constructed successfully is skipped, but a
vendor whose construction failed may be attempted again if duplicated in the
fallback order.  When the candidate sequence is duplicate-free, every
candidate is attempted exactly once in order; candidates whose construction
fails are skipped, the selected active provider is the first candidate that
constructs successfully, and if every candidate fails the
no-provider-available error is raised. -/
theorem provider_selection_spec :
    ∀ (ok : String → Bool) (primary : String) (fallback_order : List String),
      (all_providers primary fallback_order).Nodup →
      (fallbackLoop ok (all_providers primary fallback_order) []).1 =
        all_providers primary fallback_order ∧
      ((all_providers primary fallback_order).filter (fun p => ok p) = [] →
        create_with_fallback ok primary fallback_order =
          .error "No LLM providers could be initialized" ∧
        get_primary_provider ok primary fallback_order true =
          .error "No LLM providers could be initialized") ∧
      (∀ p ps, (all_providers primary fallback_order).filter (fun p => ok p) = p :: ps →
        create_with_fallback ok primary fallback_order = .ok (p :: ps) ∧
        get_primary_provider ok primary fallback_order true = .ok p) := by
  intro ok primary fb hnd
  have h := fallbackLoop_nodup ok (all_providers primary fb) [] hnd (by simp)
  refine ⟨by rw [h], ?_, ?_⟩
  · intro hnil
    refine ⟨?_, ?_⟩
    · simp [create_with_fallback, h, hnil]
    · simp [get_primary_provider, create_with_fallback, h, hnil]
  · intro p ps hcons
    refine ⟨?_, ?_⟩
    · simp [create_with_fallback, h, hcons]
    · simp [get_primary_provider, create_with_fallback, h, hcons]

theorem provider_selection_spec_witness :
    (create_with_fallback (fun p => p == "anthropic") "openai" ["gemini", "anthropic"] =
      .ok ["anthropic"] ∧
     get_primary_provider (fun p => p == "anthropic") "openai" ["gemini", "anthropic"] true =
      .ok "anthropic") ∧
    (create_with_fallback (fun _ => false) "openai" ["gemini", "anthropic"] =
      .error "No LLM providers could be initialized" ∧
     get_primary_provider (fun _ => false) "openai" ["gemini", "anthropic"] true =
      .error "No LLM providers could be initialized") :=
  ⟨(provider_selection_spec (fun p => p == "anthropic") "openai" ["gemini", "anthropic"]
      (by decide)).2.2 "anthropic" [] (by rfl),
   (provider_selection_spec (fun _ => false) "openai" ["gemini", "anthropic"]
      (by decide)).2.1 (by rfl)⟩

theorem insertOnConflict_fresh (table : List Row) (t : ℕ) (e : Extraction) (k : String)
    (hk : e.order_id = some k) (hfresh : ∀ row ∈ table, row.order_id ≠ k) :
    insertOnConflict table t e = table ++ [mkRow t e] := by
  have hko : (mkRow t e).order_id = k := by simp [mkRow, hk]
  have hany : table.any (fun row => row.order_id = (mkRow t e).order_id) = false := by
    simp only [List.any_eq_false, decide_eq_true_eq, hko]
    exact hfresh
  simp [insertOnConflict, hany]

theorem insertOnConflict_dup (table : List Row) (t now : ℕ) (e1 e2 : Extraction) (k : String)
    (h1 : e1.order_id = some k) (h2 : e2.order_id = some k)
    (hfresh : ∀ row ∈ table, row.order_id ≠ k) :
    insertOnConflict (table ++ [mkRow t e1]) now e2 =
      table ++ [{ mkRow t e1 with updated_at := now, raw_data := e2 }] := by
  have hk1 : (mkRow t e1).order_id = k := by simp [mkRow, h1]
  have hk2 : (mkRow now e2).order_id = k := by simp [mkRow, h2]
  have hany : (table ++ [mkRow t e1]).any
      (fun row => row.order_id = (mkRow now e2).order_id) = true := by
    simp only [List.any_eq_true, decide_eq_true_eq, hk2]
    exact ⟨mkRow t e1, by simp, hk1⟩
  simp only [insertOnConflict, hany, if_true, List.map_append]
  congr 1
  · rw [show table = List.map id table from (List.map_id table).symm]
    rw [List.map_map]
    apply List.map_congr_left
    intro row hrow
    simp only [Function.comp_apply, id]
    rw [if_neg]
    rw [hk2]
    exact hfresh row hrow
  · simp [hk1, hk2]

/-- C4 counterexample: two needs-review records sharing order id `"ORD-9"`
whose `data_hora` string does not parse — `datetime.fromisoformat` raises at
`invoice_extraction_v3.py`, line 282, and the per-row `except` at line 323
counts each failed — leave zero rows for that order id, not one, and return
counts `(0, 2)`.  The first conjunct shows the record is a genuine validator
output under the same parse oracle (which is only ever consulted on the
unparseable string), so the input is reachable. -/
theorem upsert_unparseable_counterexample :
    validateOne (fun _ => false) rawBadTimestamp = .ok badTimestamp ∧
    store_to_database (fun _ => false) [] 0 [badTimestamp, badTimestamp] = ⟨[], 0, 2⟩ := by
  constructor
  · norm_num [validateOne, rawBadTimestamp, badTimestamp, invoiceDataErrors,
      invoiceFieldErrors, requiredMinLen1, requiredNonneg, optionalNonneg, datetimeErrors,
      itensErrors, itemFieldErrors, precoTotalErrors, invoiceModelErrors, formatError,
      List.mapM_cons, List.mapM_nil, show ("ORD-9".length) = 5 from rfl,
      show ("Resto F".length) = 7 from rfl, show ("Tea".length) = 3 from rfl]
    rfl
  · rfl

/-- C4 (amended): persisting two non-failed records with the same order id
whose timestamps parse, into a table not yet containing that id, leaves
exactly one row for the id; the second write refreshes only the raw payload
column and the updated-at timestamp, and every business column keeps the
value of the first write.  (A record whose `data_hora` string does not parse
hits the per-row exception handler instead, is counted failed, and writes no
row.) -/
theorem upsert_keeps_first_write :
    ∀ (dtOk : String → Bool) (table : List Row) (t : ℕ) (e1 e2 : Extraction) (k : String),
      e1.order_id = some k → e2.order_id = some k →
      e1.status ≠ some "failed" → e2.status ≠ some "failed" →
      dataHoraParses dtOk e1 = true → dataHoraParses dtOk e2 = true →
      (∀ row ∈ table, row.order_id ≠ k) →
      store_to_database dtOk table t [e1, e2] =
        ⟨table ++ [{ mkRow t e1 with updated_at := t + 1, raw_data := e2 }], 2, 0⟩ ∧
      ((store_to_database dtOk table t [e1, e2]).table.filter
          (fun r => r.order_id = k)).length = 1 := by
  intro dtOk table t e1 e2 k h1 h2 hs1 hs2 hp1 hp2 hfresh
  have hstep : store_to_database dtOk table t [e1, e2] =
      ⟨insertOnConflict (insertOnConflict table t e1) (t + 1) e2, 2, 0⟩ := by
    simp [store_to_database, hs1, hs2, hp1, hp2]
  rw [insertOnConflict_fresh table t e1 k h1 hfresh] at hstep
  rw [insertOnConflict_dup table t (t + 1) e1 e2 k h1 h2 hfresh] at hstep
  refine ⟨hstep, ?_⟩
  rw [hstep]
  simp only [List.filter_append, List.length_append]
  have htab : table.filter (fun r => decide (r.order_id = k)) = [] := by
    rw [List.filter_eq_nil_iff]
    intro row hrow
    simpa using hfresh row hrow
  have hone : (mkRow t e1).order_id = k := by simp [mkRow, h1]
  simp [htab, hone]

theorem upsert_keeps_first_write_witness :
    store_to_database (fun _ => true) [] 0 [demoFirst, demoSecond] =
      ⟨[{ mkRow 0 demoFirst with updated_at := 1, raw_data := demoSecond }], 2, 0⟩ ∧
    ((store_to_database (fun _ => true) [] 0 [demoFirst, demoSecond]).table.filter
        (fun r => r.order_id = "ORD-7")).length = 1 :=
  upsert_keeps_first_write (fun _ => true) [] 0 demoFirst demoSecond "ORD-7" rfl rfl
    (by simp [demoFirst]) (by simp [demoSecond]) rfl rfl (by simp)

theorem strAppendCancel (s a b : String) (h : s ++ a = s ++ b) : a = b := by
  have hd := congrArg String.data h
  simp only [String.data_append] at hd
  have h2 := List.append_cancel_left hd
  cases a; cases b
  exact congrArg String.mk h2

/-- C10 counterexample: an order-id-less needs-review record whose
`data_hora` string does not parse raises at the `fromisoformat` call before
the `INSERT`, so no row — `UNKNOWN_` key or otherwise — is written for it,
refuting "the row is still written" as stated.  (The parse oracle is only
ever consulted on the unparseable string.) -/
theorem unknown_unwritten_counterexample :
    noOrderBadTimestamp.order_id = none ∧
    noOrderBadTimestamp.status ≠ some "failed" ∧
    store_to_database (fun _ => false) [] 0 [noOrderBadTimestamp] = ⟨[], 0, 1⟩ := by
  refine ⟨rfl, by decide, rfl⟩

/-- C10 (amended): a non-failed record that reaches persistence without an
`order_id` key and survives the per-row `try` (its `data_hora` is absent or
parses) is still written, under the synthetic key `"UNKNOWN_"` followed by
the rendered current timestamp; two persistence attempts of such records at
instants whose rendered timestamps differ use different keys, so
re-persisting the same order-id-less document is not idempotent and creates a
second row.  (If the record's `data_hora` string does not parse, the insert
raises first and no row is written at all.) -/
theorem unknown_order_id_fresh :
    ∀ (dtOk : String → Bool) (table : List Row) (t1 t2 : ℕ) (e1 e2 : Extraction),
      e1.order_id = none → e2.order_id = none →
      e1.status ≠ some "failed" → e2.status ≠ some "failed" →
      dataHoraParses dtOk e1 = true → dataHoraParses dtOk e2 = true →
      toString t1 ≠ toString t2 →
      (∀ row ∈ table, ∀ s : String, row.order_id ≠ "UNKNOWN_" ++ s) →
      (mkRow t1 e1).order_id = "UNKNOWN_" ++ toString t1 ∧
      store_to_database dtOk table t1 [e1] = ⟨table ++ [mkRow t1 e1], 1, 0⟩ ∧
      store_to_database dtOk (table ++ [mkRow t1 e1]) t2 [e2] =
        ⟨table ++ [mkRow t1 e1, mkRow t2 e2], 1, 0⟩ := by
  intro dtOk table t1 t2 e1 e2 h1 h2 hs1 hs2 hp1 hp2 hts hfresh
  have hk1 : (mkRow t1 e1).order_id = "UNKNOWN_" ++ toString t1 := by simp [mkRow, h1]
  have hk2 : (mkRow t2 e2).order_id = "UNKNOWN_" ++ toString t2 := by simp [mkRow, h2]
  have hany1 : table.any (fun row => row.order_id = (mkRow t1 e1).order_id) = false := by
    simp only [List.any_eq_false, decide_eq_true_eq, hk1]
    exact fun row hrow => hfresh row hrow (toString t1)
  have hany2 : (table ++ [mkRow t1 e1]).any
      (fun row => row.order_id = (mkRow t2 e2).order_id) = false := by
    simp only [List.any_eq_false, decide_eq_true_eq, hk2, List.mem_append,
      List.mem_singleton]
    rintro row (hrow | rfl)
    · exact hfresh row hrow (toString t2)
    · rw [hk1]
      exact fun hcontra => hts (strAppendCancel "UNKNOWN_" _ _ hcontra)
  refine ⟨hk1, ?_, ?_⟩
  · simp [store_to_database, hs1, hp1, insertOnConflict, hany1]
  · simp [store_to_database, hs2, hp2, insertOnConflict, hany2]

theorem unknown_order_id_fresh_witness :
    (mkRow 0 noOrderId).order_id = "UNKNOWN_" ++ toString 0 ∧
    store_to_database (fun _ => true) [] 0 [noOrderId] = ⟨[mkRow 0 noOrderId], 1, 0⟩ ∧
    store_to_database (fun _ => true) ([] ++ [mkRow 0 noOrderId]) 1 [noOrderId] =
      ⟨[] ++ [mkRow 0 noOrderId, mkRow 1 noOrderId], 1, 0⟩ := by
  have h := unknown_order_id_fresh (fun _ => true) [] 0 1 noOrderId noOrderId rfl rfl
    (by simp [noOrderId]) (by simp [noOrderId]) rfl rfl (by decide) (by simp)
  simpa using h

/-- C9 counterexample: an invocation containing a single needs-review record
whose `data_hora` string does not parse has no status-failed record at all,
yet the record is not written and the failure counter ends at 1 — the
`fromisoformat` call raises at `invoice_extraction_v3.py`, line 282, and the
per-row `except` at line 323 counts it failed — refuting "the remaining
records in the same invocation are still written" and "the failed count
tallies exactly the status-failed records". -/
theorem store_unwritten_nonfailed_counterexample :
    ([badTimestampB].countP (fun e => e.status = some "failed")) = 0 ∧
    store_to_database (fun _ => false) [] 0 [badTimestampB] = ⟨[], 0, 1⟩ := by
  refine ⟨rfl, rfl⟩

/-- C9 (amended): persistence counts but skips every failed record — no row
is written for it — and the remaining records of the same invocation are
still processed independently: a record is written exactly when it survives
the per-row `try` (not already failed, and its `data_hora`, when present,
parses); keeping only those records changes neither the resulting table nor
the success count, and the failed counter tallies every record that is
skipped — the status-failed ones plus the rows whose insert raised on an
unparseable timestamp.  A document whose bytes could not be read yields a
failed record that passes the extraction stage and the validator unchanged
and produces no relational row. -/
theorem store_skips_failed :
    (∀ (dtOk : String → Bool) (table : List Row) (t : ℕ) (l : List Extraction),
      store_to_database dtOk table t l =
        ⟨(store_to_database dtOk table t (l.filter (rowWritable dtOk))).table,
         (l.filter (rowWritable dtOk)).length,
         l.countP (fun e => !(rowWritable dtOk e))⟩) ∧
    (∀ (parse : String → Except String Extraction) (p : Provider) (clock : ℕ → String)
       (dtOk dtOkStore : String → Bool) (fk err : String) (table : List Row) (t : ℕ),
      process_batch_with_llm parse (.ok p) clock [⟨fk, "", none, some err⟩] =
        [failedRecord fk err] ∧
      validate_extractions dtOk [failedRecord fk err] = .ok [failedRecord fk err] ∧
      store_to_database dtOkStore table t [failedRecord fk err] = ⟨table, 0, 1⟩) := by
  constructor
  · intro dtOk table t l
    induction l generalizing table t with
    | nil => simp [store_to_database]
    | cons e rest ih =>
      by_cases he : e.status = some "failed"
      · have hw : rowWritable dtOk e = false := by
          simp [rowWritable, he]
        simp only [store_to_database, if_pos he, List.filter_cons, hw,
          Bool.false_eq_true, if_false, List.countP_cons, hw]
        rw [ih table t]
        simp [hw]
      · by_cases hp : dataHoraParses dtOk e = true
        · have hw : rowWritable dtOk e = true := by
            simp [rowWritable, he, hp]
          simp only [store_to_database, if_neg he, hp, if_true, List.filter_cons, hw]
          rw [ih (insertOnConflict table t e) (t + 1)]
          simp [hw]
        · have hp2 : dataHoraParses dtOk e = false := by
            cases hx : dataHoraParses dtOk e
            · rfl
            · exact absurd hx hp
          have hw : rowWritable dtOk e = false := by
            simp [rowWritable, hp2]
          simp only [store_to_database, if_neg he, hp2, Bool.false_eq_true, if_false,
            List.filter_cons, hw]
          rw [ih table t]
          simp [hw]
  · intro parse p clock dtOk dtOkStore fk err table t
    refine ⟨rfl, rfl, rfl⟩

/-- C5: when provider selection fails, every document in the batch is marked
failed with the selection error and the parse / call oracles are never
consulted; otherwise the batch is processed element-wise in order — the
output has exactly one entry per input document and the `i`-th output is a
function of the `i`-th document alone, so one document's failure cannot abort
the processing of the others. -/
theorem process_batch_spec :
    (∀ (parse : String → Except String Extraction) (clock : ℕ → String)
       (err : String) (batch : List BatchEntry),
      process_batch_with_llm parse (.error err) clock batch =
        batch.map (fun d => failedRecord d.file_key err)) ∧
    (∀ (parse : String → Except String Extraction) (p : Provider) (clock : ℕ → String)
       (batch : List BatchEntry),
      (process_batch_with_llm parse (.ok p) clock batch).length = batch.length ∧
      (∀ i : ℕ, (process_batch_with_llm parse (.ok p) clock batch)[i]? =
        (batch[i]?).map (fun d => processDoc parse p (clock i) d))) := by
  constructor
  · intro parse clock err batch
    rfl
  · intro parse p clock batch
    constructor
    · simp [process_batch_with_llm, List.enum_length]
    · intro i
      by_cases h : i < batch.length
      · rw [List.getElem?_eq_getElem h]
        have hlen : i < (batch.enum.map
            (fun q => processDoc parse p (clock q.1) q.2)).length := by
          simpa [List.enum_length] using h
        simp only [process_batch_with_llm]
        rw [List.getElem?_eq_getElem hlen]
        simp [List.getElem_map, List.getElem_enum]
      · have h1 : batch[i]? = none := by
          rw [List.getElem?_eq_none]
          omega
        have h2 : (process_batch_with_llm parse (.ok p) clock batch)[i]? = none := by
          rw [List.getElem?_eq_none]
          simp only [process_batch_with_llm, List.length_map, List.enum_length]
          omega
        simp [h1, h2]

theorem validateOne_shape (dtOk : String → Bool) (e e' : Extraction)
    (h : validateOne dtOk e = .ok e') : validShape e' := by
  unfold validateOne at h
  by_cases hs : e.status = some "failed"
  · rw [if_pos hs] at h
    cases h
    exact Or.inl hs
  · rw [if_neg hs] at h
    match herr : invoiceDataErrors dtOk e with
    | [] =>
      rw [herr] at h
      cases h
      exact Or.inr (Or.inl ⟨rfl, rfl⟩)
    | err :: errs =>
      rw [herr] at h
      dsimp only at h
      match hfmt : (err :: errs).mapM formatError with
      | .error ex => rw [hfmt] at h; cases h
      | .ok ds =>
        rw [hfmt] at h
        cases h
        exact Or.inr (Or.inr ⟨rfl, rfl⟩)

theorem validate_extractions_shape (dtOk : String → Bool) :
    ∀ (l out : List Extraction), validate_extractions dtOk l = .ok out →
      ∀ e ∈ out, validShape e := by
  intro l
  induction l with
  | nil =>
    intro out h e he
    cases h
    simp at he
  | cons x rest ih =>
    intro out h e he
    unfold validate_extractions at h
    match hx : validateOne dtOk x with
    | .error ex => rw [hx] at h; cases h
    | .ok v =>
      rw [hx] at h
      match hr : validate_extractions dtOk rest with
      | .error ex => rw [hr] at h; cases h
      | .ok vs =>
        rw [hr] at h
        cases h
        rcases List.mem_cons.mp he with rfl | hmem
        · exact validateOne_shape dtOk x e hx
        · exact ih vs hr e hmem

/-- C6: every record reaching the file-move stage out of the validator is in
one of the three terminal shapes; for every such record with a non-empty file
key the move stage assigns exactly one destination and it is determined by the
status exactly as the spec's table states (`failed` to `failed/`,
`needs_review` to `review/`, `success` to `processed/`); and the action taken
for one record — including a failed copy or delete — never changes what is
done for the records before or after it. -/
theorem move_routes_by_status :
    (∀ (dtOk : String → Bool) (l out : List Extraction),
      validate_extractions dtOk l = .ok out → ∀ e ∈ out, validShape e) ∧
    (∀ (copyOk delOk : String → Bool) (e : Extraction) (fk : String),
      validShape e → e.file_key = some fk → fk ≠ "" →
      destPrefixFor e = specStatusDest e ∧
      moveOne copyOk delOk e =
        some ⟨fk, pyReplace fk "incoming/" (specStatusDest e), copyOk fk,
              copyOk fk && delOk fk⟩) ∧
    (∀ (copyOk delOk : String → Bool) (l1 l2 : List Extraction) (e : Extraction),
      (move_processed_files copyOk delOk (l1 ++ e :: l2)).1 =
        (move_processed_files copyOk delOk l1).1 ++ (moveOne copyOk delOk e).toList ++
        (move_processed_files copyOk delOk l2).1) := by
  refine ⟨validate_extractions_shape, ?_, ?_⟩
  · intro copyOk delOk e fk hshape hfk hne
    have hdest : destPrefixFor e = specStatusDest e := by
      rcases hshape with hf | ⟨hs, hv⟩ | ⟨hs, hv⟩
      · simp [destPrefixFor, specStatusDest, hf]
      · simp [destPrefixFor, specStatusDest, hs, hv]
      · simp [destPrefixFor, specStatusDest, hs, hv]
    refine ⟨hdest, ?_⟩
    simp [moveOne, hfk, hne, hdest]
  · intro copyOk delOk l1 l2 e
    simp [move_processed_files, List.filterMap_append, List.filterMap_cons]
    cases moveOne copyOk delOk e <;> simp

theorem move_routes_by_status_witness :
    destPrefixFor reviewRecord = specStatusDest reviewRecord ∧
    moveOne (fun _ => true) (fun _ => false) reviewRecord =
      some ⟨"incoming/x.pdf",
            pyReplace "incoming/x.pdf" "incoming/" (specStatusDest reviewRecord),
            true, true && false⟩ :=
  move_routes_by_status.2.1 (fun _ => true) (fun _ => false) reviewRecord "incoming/x.pdf"
    (Or.inr (Or.inr ⟨rfl, rfl⟩)) rfl (by decide)

theorem item_accept_tolerance (i : ℕ) (it : InvoiceItem) (h : itemFieldErrors i it = []) :
    |it.preco_total - (it.quantidade : ℚ) * it.preco_unitario| ≤ 0.01 := by
  unfold itemFieldErrors at h
  rcases List.append_eq_nil.mp h with ⟨hABC, hD⟩
  rcases List.append_eq_nil.mp hABC with ⟨hAB, hC⟩
  rcases List.append_eq_nil.mp hAB with ⟨hA, hB⟩
  have hq : 1 ≤ it.quantidade := by
    by_contra hq
    rw [if_neg hq] at hB
    cases hB
  have hu : 0 ≤ it.preco_unitario := by
    by_contra hu
    rw [if_neg hu] at hC
    cases hC
  unfold precoTotalErrors at hD
  have hpt : ¬ ¬ (0 ≤ it.preco_total) := by
    intro hpt
    rw [if_pos hpt] at hD
    cases hD
  rw [if_neg hpt, if_pos ⟨hq, hu⟩] at hD
  by_contra htol
  rw [if_neg htol] at hD
  cases hD

theorem record_accept_tolerances (dtOk : String → Bool) (e : Extraction)
    (h : invoiceDataErrors dtOk e = []) :
    |e.total.getD 0 - (e.subtotal.getD 0 + e.taxa_entrega.getD 0 +
      e.taxa_servico.getD 0 + e.gorjeta.getD 0)| ≤ 0.01 ∧
    |e.subtotal.getD 0 - ((e.itens.getD []).map (fun it => it.preco_total)).sum| ≤ 0.01 := by
  unfold invoiceDataErrors at h
  by_cases hf : (invoiceFieldErrors dtOk e).isEmpty
  · rw [if_pos hf] at h
    unfold invoiceModelErrors at h
    dsimp only at h
    split_ifs at h with h1 h2
    exact ⟨h1, h2⟩
  · rw [if_neg hf] at h
    rw [h] at hf
    simp at hf

/-- C1: the pydantic validators accept an invoice item only when
`|preco_total − quantidade × preco_unitario| ≤ 0.01`, and accept a record
only when `|total − (subtotal + fees + tip)| ≤ 0.01` and
`|subtotal − Σ line totals| ≤ 0.01`; but a record violating a record-level
tolerance does not end up as needs_review — the validation task raises
`IndexError` while formatting the model-validator error (its `loc` tuple is
empty) and crashes instead. -/
theorem monetary_tolerance_spec :
    (∀ (i : ℕ) (it : InvoiceItem), itemFieldErrors i it = [] →
      |it.preco_total - (it.quantidade : ℚ) * it.preco_unitario| ≤ 0.01) ∧
    (∀ (dtOk : String → Bool) (e : Extraction), invoiceDataErrors dtOk e = [] →
      |e.total.getD 0 - (e.subtotal.getD 0 + e.taxa_entrega.getD 0 +
        e.taxa_servico.getD 0 + e.gorjeta.getD 0)| ≤ 0.01 ∧
      |e.subtotal.getD 0 - ((e.itens.getD []).map (fun it => it.preco_total)).sum| ≤ 0.01) ∧
    validate_extractions (fun _ => true) [businessBadTotal] =
      .error "IndexError: tuple index out of range" := by
  refine ⟨item_accept_tolerance, record_accept_tolerances, ?_⟩
  norm_num [validate_extractions, validateOne, businessBadTotal, invoiceDataErrors,
    invoiceFieldErrors, requiredMinLen1, requiredNonneg, optionalNonneg, datetimeErrors,
    itensErrors, itemFieldErrors, precoTotalErrors, invoiceModelErrors, formatError,
    List.mapM_cons, List.mapM_nil, show ("ORD-1".length) = 5 from rfl,
    show ("Resto A".length) = 7 from rfl, show ("Burger".length) = 6 from rfl]
  rfl

theorem monetary_tolerance_spec_witness :
    |(⟨"Burger", 2, 5, 10⟩ : InvoiceItem).preco_total -
      ((⟨"Burger", 2, 5, 10⟩ : InvoiceItem).quantidade : ℚ) *
        (⟨"Burger", 2, 5, 10⟩ : InvoiceItem).preco_unitario| ≤ 0.01 ∧
    (|demoFirst.total.getD 0 - (demoFirst.subtotal.getD 0 + demoFirst.taxa_entrega.getD 0 +
        demoFirst.taxa_servico.getD 0 + demoFirst.gorjeta.getD 0)| ≤ 0.01 ∧
     |demoFirst.subtotal.getD 0 -
        ((demoFirst.itens.getD []).map (fun it => it.preco_total)).sum| ≤ 0.01) :=
  ⟨monetary_tolerance_spec.1 0 ⟨"Burger", 2, 5, 10⟩ (by
      norm_num [itemFieldErrors, precoTotalErrors,
        show ("Burger".length) = 6 from rfl]),
   monetary_tolerance_spec.2.1 (fun _ => true) demoFirst (by
      norm_num [invoiceDataErrors, invoiceFieldErrors, requiredMinLen1, requiredNonneg,
        optionalNonneg, datetimeErrors, itensErrors, itemFieldErrors, precoTotalErrors,
        invoiceModelErrors, demoFirst, show ("ORD-7".length) = 5 from rfl,
        show ("Resto C".length) = 7 from rfl, show ("Salad".length) = 5 from rfl])⟩

theorem requiredMinLen1_loc (name : String) (v : Option String) :
    ∀ x ∈ requiredMinLen1 name v, x.loc ≠ [] := by
  intro x hx
  unfold requiredMinLen1 at hx
  cases v with
  | none =>
    simp only [List.mem_singleton] at hx
    subst hx
    simp
  | some s =>
    dsimp only at hx
    split_ifs at hx
    · simp at hx
    · simp only [List.mem_singleton] at hx
      subst hx
      simp

theorem requiredNonneg_loc (name : String) (v : Option ℚ) :
    ∀ x ∈ requiredNonneg name v, x.loc ≠ [] := by
  intro x hx
  unfold requiredNonneg at hx
  cases v with
  | none =>
    simp only [List.mem_singleton] at hx
    subst hx
    simp
  | some q =>
    dsimp only at hx
    split_ifs at hx
    · simp at hx
    · simp only [List.mem_singleton] at hx
      subst hx
      simp

theorem optionalNonneg_loc (name : String) (v : Option ℚ) :
    ∀ x ∈ optionalNonneg name v, x.loc ≠ [] := by
  intro x hx
  unfold optionalNonneg at hx
  cases v with
  | none => simp at hx
  | some q =>
    dsimp only at hx
    split_ifs at hx
    · simp at hx
    · simp only [List.mem_singleton] at hx
      subst hx
      simp

theorem datetimeErrors_loc (dtOk : String → Bool) (v : Option String) :
    ∀ x ∈ datetimeErrors dtOk v, x.loc ≠ [] := by
  intro x hx
  unfold datetimeErrors at hx
  cases v with
  | none =>
    simp only [List.mem_singleton] at hx
    subst hx
    simp
  | some s =>
    dsimp only at hx
    split_ifs at hx
    · simp at hx
    · simp only [List.mem_singleton] at hx
      subst hx
      simp

theorem precoTotalErrors_loc (i : ℕ) (it : InvoiceItem) :
    ∀ x ∈ precoTotalErrors i it, x.loc ≠ [] := by
  intro x hx
  unfold precoTotalErrors at hx
  split_ifs at hx <;> simp_all

theorem itemFieldErrors_loc (i : ℕ) (it : InvoiceItem) :
    ∀ x ∈ itemFieldErrors i it, x.loc ≠ [] := by
  intro x hx
  unfold itemFieldErrors at hx
  simp only [List.mem_append] at hx
  rcases hx with ((hx | hx) | hx) | hx
  · split_ifs at hx <;> simp_all
  · split_ifs at hx <;> simp_all
  · split_ifs at hx <;> simp_all
  · exact precoTotalErrors_loc i it x hx

theorem itensErrors_loc (v : Option (List InvoiceItem)) :
    ∀ x ∈ itensErrors v, x.loc ≠ [] := by
  intro x hx
  unfold itensErrors at hx
  cases v with
  | none =>
    simp only [List.mem_singleton] at hx
    subst hx
    simp
  | some l =>
    dsimp only at hx
    split_ifs at hx
    · simp only [List.mem_singleton] at hx
      subst hx
      simp
    · simp only [List.mem_flatten, List.mem_map] at hx
      obtain ⟨es, ⟨p, hp, rfl⟩, hxe⟩ := hx
      exact itemFieldErrors_loc p.1 p.2 x hxe

theorem invoiceFieldErrors_loc (dtOk : String → Bool) (e : Extraction) :
    ∀ x ∈ invoiceFieldErrors dtOk e, x.loc ≠ [] := by
  intro x hx
  unfold invoiceFieldErrors at hx
  simp only [List.mem_append] at hx
  rcases hx with ((((((((hx | hx) | hx) | hx) | hx) | hx) | hx) | hx) | hx)
  · exact requiredMinLen1_loc _ _ x hx
  · exact requiredMinLen1_loc _ _ x hx
  · exact datetimeErrors_loc _ _ x hx
  · exact itensErrors_loc _ x hx
  · exact requiredNonneg_loc _ _ x hx
  · exact optionalNonneg_loc _ _ x hx
  · exact optionalNonneg_loc _ _ x hx
  · exact optionalNonneg_loc _ _ x hx
  · exact requiredNonneg_loc _ _ x hx

theorem formatErrors_ok : ∀ (errs : List PError), (∀ x ∈ errs, x.loc ≠ []) →
    errs.mapM formatError = .ok (errs.map (fun x => x.loc.headD "" ++ ": " ++ x.msg)) := by
  intro errs
  induction errs with
  | nil => intro _; rfl
  | cons err rest ih =>
    intro h
    have hloc := h err (by simp)
    rw [List.mapM_cons]
    rw [ih (fun x hx => h x (by simp [hx]))]
    match herr : err.loc with
    | [] => exact absurd herr hloc
    | f :: fs =>
      simp [formatError, herr]
      rfl

/-- C2: the validator passes records already marked failed through unchanged;
a record whose pydantic validation succeeds is kept and marked success; every
field-level error carries a non-empty location, and a record with such
structural violations is kept, downgraded to needs_review (never to failed)
with one human-readable message per violated field; but a record whose only
violation is a record-level business invariant makes the task raise
`IndexError` (the model-validator error has an empty location tuple) instead
of being downgraded. -/
theorem validator_routing_spec :
    (∀ (dtOk : String → Bool) (e : Extraction), e.status = some "failed" →
      validateOne dtOk e = .ok e) ∧
    (∀ (dtOk : String → Bool) (e : Extraction), e.status ≠ some "failed" →
      invoiceDataErrors dtOk e = [] →
      validateOne dtOk e =
        .ok { e with validation_passed := some true, status := some "success" }) ∧
    (∀ (dtOk : String → Bool) (e : Extraction) (x : PError),
      x ∈ invoiceFieldErrors dtOk e → x.loc ≠ []) ∧
    (∀ (dtOk : String → Bool) (e : Extraction) (err : PError) (errs : List PError),
      e.status ≠ some "failed" → invoiceDataErrors dtOk e = err :: errs →
      (∀ x ∈ err :: errs, x.loc ≠ []) →
      validateOne dtOk e =
        .ok { e with validation_passed := some false,
                     validation_errors := some ((err :: errs).map
                       (fun x => x.loc.headD "" ++ ": " ++ x.msg)),
                     status := some "needs_review" }) ∧
    validate_extractions (fun _ => true) [businessBadSubtotal] =
      .error "IndexError: tuple index out of range" := by
  refine ⟨?_, ?_, invoiceFieldErrors_loc, ?_, ?_⟩
  · intro dtOk e h
    unfold validateOne
    rw [if_pos h]
  · intro dtOk e hs herr
    unfold validateOne
    rw [if_neg hs, herr]
  · intro dtOk e err errs hs herr hloc
    unfold validateOne
    rw [if_neg hs, herr]
    dsimp only
    rw [formatErrors_ok (err :: errs) hloc]
    rfl
  · norm_num [validate_extractions, validateOne, businessBadSubtotal, invoiceDataErrors,
      invoiceFieldErrors, requiredMinLen1, requiredNonneg, optionalNonneg, datetimeErrors,
      itensErrors, itemFieldErrors, precoTotalErrors, invoiceModelErrors, formatError,
      List.mapM_cons, List.mapM_nil, show ("ORD-2".length) = 5 from rfl,
      show ("Resto B".length) = 7 from rfl, show ("Pizza".length) = 5 from rfl]
    rfl

theorem validator_routing_spec_witness :
    validateOne (fun _ => true) (failedRecord "incoming/z.pdf" "boom") =
      .ok (failedRecord "incoming/z.pdf" "boom") ∧
    validateOne (fun _ => true) demoFirst =
      .ok { demoFirst with validation_passed := some true, status := some "success" } ∧
    validateOne (fun _ => true) structBad =
      .ok { structBad with validation_passed := some false,
                           validation_errors :=
                             some ([(⟨["order_id"], "Field required"⟩ : PError)].map
                               (fun x => x.loc.headD "" ++ ": " ++ x.msg)),
                           status := some "needs_review" } :=
  ⟨validator_routing_spec.1 (fun _ => true) (failedRecord "incoming/z.pdf" "boom") rfl,
   validator_routing_spec.2.1 (fun _ => true) demoFirst (by decide) (by
      norm_num [invoiceDataErrors, invoiceFieldErrors, requiredMinLen1, requiredNonneg,
        optionalNonneg, datetimeErrors, itensErrors, itemFieldErrors, precoTotalErrors,
        invoiceModelErrors, demoFirst, show ("ORD-7".length) = 5 from rfl,
        show ("Resto C".length) = 7 from rfl, show ("Salad".length) = 5 from rfl]),
   validator_routing_spec.2.2.2.1 (fun _ => true) structBad
      ⟨["order_id"], "Field required"⟩ [] (by decide) (by
      norm_num [invoiceDataErrors, invoiceFieldErrors, requiredMinLen1, requiredNonneg,
        optionalNonneg, datetimeErrors, itensErrors, itemFieldErrors, precoTotalErrors,
        invoiceModelErrors, structBad, show ("Resto E".length) = 7 from rfl,
        show ("Juice".length) = 5 from rfl])
      (by intro x hx; simp only [List.mem_singleton] at hx; subst hx; simp)⟩

end InvoicePipeline
